import Mathlib

/-!
Verification of the host-agent orchestration core of the
Brainstorming_Multi_Agent repository.

The development shallowly embeds the Python source:

* `src/host_agent/remote_agent_connection.py` — the retry wrapper, the poll
  loop and the artifact extraction of `_send_and_collect_response`, the
  httpx-client cache `_get_httpx_client`, agent discovery
  (`_connect_to_agent`, `discover_all_agents`) and task submission
  (`send_task_to_architect_agent`).
* `src/host_agent/orchestrator.py` — `_is_403_error`, `_handle_agent_error`,
  `_ensure_connected` and `process_development_request`.
* `src/host_agent/__main__.py` — the REST task wrapper
  `process_development_task` and `get_development_task`.

Python dictionaries appearing as records are embedded as Lean structures
with `Option` fields (`none` = key absent); stage payloads (plan, code,
test results) are treated abstractly (the orchestrator only tests their
truthiness and passes them through).  Network effects are embedded as
explicit outcome streams supplied to the pure control logic.
-/

namespace BrainstormHost

/-! Section: String helpers: Python `in` (substring) and `str.lower` -/

/-- Test that the list `s` starts with the list `p`. -/
def charsStartWith : List Char → List Char → Bool
  | _, [] => true
  | [], _ :: _ => false
  | c :: cs, p :: ps => c == p && charsStartWith cs ps

/-- Python `pat in s` on the underlying character lists. -/
def charsContain : List Char → List Char → Bool
  | [], pat => pat.isEmpty
  | c :: cs, pat => charsStartWith (c :: cs) pat || charsContain cs pat

/-- Python substring test `pat in s`. -/
def strContains (s pat : String) : Bool :=
  charsContain s.data pat.data

/-- Python `s.lower()` (ASCII case folding suffices for the literals used). -/
def lowerStr (s : String) : String :=
  ⟨s.data.map Char.toLower⟩

/-! Section: Retry wrapper of `_send_and_collect_response`
(`src/host_agent/remote_agent_connection.py`, lines 245–495)

One call of the function runs `for attempt in range(max_retries)`; the body
either returns a dictionary or raises, and each `except` clause either
returns a dictionary or sleeps and continues.  The embedding abstracts each
iteration's outcome into `AttemptOutcome` and runs the loop over a stream of
outcomes, recording the returned dictionary, the number of attempts
performed and the sleep durations. -/

/-- A dictionary returned by `_send_and_collect_response`: either the merged
success mapping or an error dictionary `{"error": ..., "status_code"?: ...,
"non_retryable"?: ...}` (absent keys are `none` / `false`). -/
inductive CallResult (V : Type) where
  | success (result : List (String × V))
  | errorResult (error : String) (status_code : Option Nat) (non_retryable : Bool)
  deriving Repr, DecidableEq

/-- Outcome of one iteration of the retry loop: the `try` block returned a
dictionary, or it raised an exception of one of the three handled classes
(`httpx.HTTPStatusError` with its response status, `httpx.HTTPError`, or any
other `Exception`), carrying the Python `str(e)` message. -/
inductive AttemptOutcome (V : Type) where
  | bodyReturn (r : CallResult V)
  | httpStatusError (status_code : Option Nat) (msg : String)
  | httpError (msg : String)
  | otherError (msg : String)
  deriving Repr, DecidableEq

/-- Source literal `max_retries = 3`. -/
def max_retries : Nat := 3

/-- Source literal `retry_delay = 2` (seconds). -/
def retry_delay : Nat := 2

/-- The 403 error message literal of the source. -/
def forbiddenMsg : String :=
  "403 Forbidden: API key may be invalid or workflow mismatch. Check API key and workflow configuration."

/-- The error dictionary returned by every 403 branch of the source. -/
def forbiddenResult (V : Type) : CallResult V :=
  .errorResult forbiddenMsg (some 403) true

/-- Python `f-string` rendering of an optional status code. -/
def statusStr : Option Nat → String
  | some n => toString n
  | none => "None"

/-- What one iteration does after its outcome: return a dictionary (ending
the loop) or sleep `wait` seconds and continue. -/
inductive HandlerStep (V : Type) where
  | done (r : CallResult V)
  | retry (wait : Nat)
  deriving Repr, DecidableEq

/-- The branch structure of the loop body of `_send_and_collect_response`
for iteration `attempt` (0-based), exactly following the three `except`
clauses of the source (lines 404–492). -/
def handleAttempt {V : Type} (attempt : Nat) : AttemptOutcome V → HandlerStep V
  | .bodyReturn r => .done r
  | .httpStatusError status_code msg =>
    if status_code == some 403 then
      .done (forbiddenResult V)
    else if (status_code == some 503 || status_code == none) && attempt < max_retries - 1 then
      .retry (retry_delay * 2 ^ attempt)
    else
      .done (.errorResult ("HTTP " ++ statusStr status_code ++ " error: " ++ msg) status_code false)
  | .httpError msg =>
    if strContains msg "403" || strContains msg "Forbidden" then
      .done (forbiddenResult V)
    else if attempt < max_retries - 1 then
      .retry (retry_delay * 2 ^ attempt)
    else
      .done (.errorResult ("HTTP error: " ++ msg) none false)
  | .otherError msg =>
    if strContains msg "403" || strContains msg "Forbidden" then
      .done (forbiddenResult V)
    else if (strContains msg "503" || strContains msg "Service Unavailable")
        && attempt < max_retries - 1 then
      .retry (retry_delay * 2 ^ attempt)
    else
      .done (.errorResult msg none false)

/-- Trace of one call of `_send_and_collect_response`: the returned
dictionary, the number of attempts performed, and the sleeps executed
between attempts (in order). -/
structure RunTrace (V : Type) where
  result : CallResult V
  attempts : Nat
  sleeps : List Nat
  deriving Repr, DecidableEq

/-- The retry loop from iteration `attempt` with `fuel` iterations left
(`fuel = max_retries - attempt` at every call site). -/
def runFrom {V : Type} (outcomes : Nat → AttemptOutcome V) :
    Nat → Nat → List Nat → RunTrace V
  | 0, attempt, sleeps =>
    -- after the `for` loop: `return {"error": "Failed after all retries"}`
    ⟨.errorResult "Failed after all retries" none false, attempt, sleeps⟩
  | fuel + 1, attempt, sleeps =>
    match handleAttempt attempt (outcomes attempt) with
    | .done r => ⟨r, attempt + 1, sleeps⟩
    | .retry w => runFrom outcomes fuel (attempt + 1) (sleeps ++ [w])

/-- One call of `_send_and_collect_response`, given the stream of per-attempt
outcomes. -/
def sendAndCollect {V : Type} (outcomes : Nat → AttemptOutcome V) : RunTrace V :=
  runFrom outcomes max_retries 0 []

/-- The outcome classes the source treats as an authorization failure:
a status-carrying error with code 403 (lines 404–419), or an error of the
other two classes whose message contains "403" or "Forbidden"
(lines 438–449, 465–476). -/
def isAuthFailure {V : Type} : AttemptOutcome V → Bool
  | .bodyReturn _ => false
  | .httpStatusError status_code _ => status_code == some 403
  | .httpError msg => strContains msg "403" || strContains msg "Forbidden"
  | .otherError msg => strContains msg "403" || strContains msg "Forbidden"

/-- The outcome classes the source retries (when attempts remain):
status 503 or a missing status for `httpx.HTTPStatusError`; any
`httpx.HTTPError` not classified 403; any other exception not classified
403 whose message contains "503" or "Service Unavailable". -/
def isRetryableSignal {V : Type} : AttemptOutcome V → Bool
  | .bodyReturn _ => false
  | .httpStatusError status_code _ => status_code == some 503 || status_code == none
  | .httpError msg => !(strContains msg "403" || strContains msg "Forbidden")
  | .otherError msg =>
    !(strContains msg "403" || strContains msg "Forbidden")
      && (strContains msg "503" || strContains msg "Service Unavailable")

/-- The dictionary the source returns when the final attempt's outcome is not
retried. -/
def finalError {V : Type} : AttemptOutcome V → CallResult V
  | .bodyReturn r => r
  | .httpStatusError status_code msg =>
    .errorResult ("HTTP " ++ statusStr status_code ++ " error: " ++ msg) status_code false
  | .httpError msg => .errorResult ("HTTP error: " ++ msg) none false
  | .otherError msg => .errorResult msg none false

/-! Section: Poll phase of `_send_and_collect_response` (lines 288–339)

After submission the code inspects the submission response's task state; if
it is neither "completed" nor "failed" it enters

    end_time = 300
    while time.time() < end_time:
        await asyncio.sleep(5)
        ...get task state; on exception continue; on "completed" break;
           on "failed" return the error dictionary; otherwise loop...
    if not final_task:
        return {"error": "Task timed out waiting for completion"}

`time.time()` is seconds since the Unix epoch; the embedding passes it in as
`now` and advances it by the sleep interval each iteration (a lower bound on
the real elapsed time; advancing it faster only makes the guard fail
earlier).  `end_time` is the literal 300 of the source, not `now + 300`. -/

/-- Result of one `get_task` poll: the call raised (logged, loop continues),
or it returned a task with an optional status state and an optional failure
message. -/
inductive FetchOutcome (V : Type) where
  | fetchError
  | fetched (state : Option String) (failMessage : Option String) (task : V)
  deriving Repr, DecidableEq

/-- How the poll phase ends: a completed task, a remote-reported failure
dictionary, or the timeout dictionary
`{"error": "Task timed out waiting for completion"}`. -/
inductive PollResult (V : Type) where
  | completed (task : V)
  | taskFailed (error : String)
  | timeout
  deriving Repr, DecidableEq

/-- Source literal `end_time = 300`. -/
def end_time : Nat := 300

/-- Poll interval of the source, `await asyncio.sleep(5)`. -/
def poll_sleep : Nat := 5

/-- The `while time.time() < end_time` loop, returning the poll result and
the number of status fetches performed.  `fuel` bounds the iterations (any
`fuel ≥ (deadline - now + poll_sleep - 1) / poll_sleep` is exact). -/
def pollLoopGo {V : Type} (fetches : Nat → FetchOutcome V) (deadline : Nat) :
    Nat → Nat → Nat → PollResult V × Nat
  | 0, _, fetchCount => (.timeout, fetchCount)
  | fuel + 1, now, fetchCount =>
    if now < deadline then
      match fetches fetchCount with
      | .fetchError => pollLoopGo fetches deadline fuel (now + poll_sleep) (fetchCount + 1)
      | .fetched state failMessage task =>
        if state == some "completed" then (.completed task, fetchCount + 1)
        else if state == some "failed" then
          (.taskFailed ("Task failed: " ++ failMessage.getD "Unknown error"), fetchCount + 1)
        else pollLoopGo fetches deadline fuel (now + poll_sleep) (fetchCount + 1)
    else (.timeout, fetchCount)

/-- Lines 288–339: the initial status check on the submission response
followed, when the state is non-terminal, by the poll loop with the
source's deadline `end_time = 300` compared against the clock `now`. -/
def awaitTask {V : Type} (state : Option String) (failMessage : Option String) (task : V)
    (now : Nat) (fetches : Nat → FetchOutcome V) : PollResult V × Nat :=
  if state == some "completed" then (.completed task, 0)
  else if state == some "failed" then
    (.taskFailed ("Task failed: " ++ failMessage.getD "Unknown error"), 0)
  else pollLoopGo fetches end_time end_time now 0

/-- A fetch outcome that keeps the loop polling: a raised status call or a
state that is neither "completed" nor "failed". -/
def nonTerminalFetch {V : Type} : FetchOutcome V → Bool
  | .fetchError => true
  | .fetched state _ _ => !(state == some "completed") && !(state == some "failed")

/-! Section: Artifact extraction of `_send_and_collect_response` (lines 341–402)

The final task's artifacts are walked in order; within each artifact the
parts are walked in order.  A text part whose content `json.loads` to a
dictionary is merged into `final_result` (`final_result.update(parsed)`,
later fragments overwriting earlier ones); any other part is skipped.  If
nothing was collected the function returns
`{"error": "No result artifacts collected"}`.  The embedding abstracts
`json.loads` of a part's text into a `PartParse` value; dictionary values
stay abstract in `V`.  Python dictionaries are association lists with
unique keys in insertion order (`json.loads` never produces duplicates). -/

/-- One artifact part, as the extraction code classifies it: not a text
part (or no text), text that fails to decode, text that decodes to a
non-dictionary, or text that decodes to a dictionary. -/
inductive PartParse (V : Type) where
  | nonText
  | decodeError
  | notDict
  | dict (entries : List (String × V))
  deriving Repr, DecidableEq

/-- Python `d[k] = v` on an insertion-ordered association list: overwrite in
place if the key exists, append otherwise. -/
def dictInsert {V : Type} (d : List (String × V)) (kv : String × V) : List (String × V) :=
  if d.any (fun p => p.1 == kv.1) then
    d.map (fun p => if p.1 == kv.1 then (p.1, kv.2) else p)
  else d ++ [kv]

/-- Python `d.update(e)`: insert `e`'s pairs into `d` in order. -/
def dictUpdate {V : Type} (d e : List (String × V)) : List (String × V) :=
  e.foldl dictInsert d

/-- Lines 369–376: a parsed dictionary is merged into the accumulator
(`final_result = parsed` when the accumulator is empty, else
`final_result.update(parsed)`); every other part leaves it unchanged. -/
def mergeStep {V : Type} (acc : List (String × V)) : PartParse V → List (String × V)
  | .dict entries => if acc.isEmpty then entries else dictUpdate acc entries
  | _ => acc

/-- Lines 341–402: fold all parts of all artifacts (in order) through
`mergeStep`; return the merged mapping, or the explicit extraction error
when nothing was collected. -/
def extractFinalResult {V : Type} (artifacts : List (List (PartParse V))) : CallResult V :=
  let final_result := (artifacts.flatten).foldl mergeStep []
  if final_result.isEmpty then .errorResult "No result artifacts collected" none false
  else .success final_result

/-- The dictionary fragments among a part list, in order. -/
def dictFragments {V : Type} : List (PartParse V) → List (List (String × V))
  | [] => []
  | .dict e :: ps => e :: dictFragments ps
  | _ :: ps => dictFragments ps

/-- First-match lookup in an association list (Python `d[k]` once keys are
unique). -/
def lookupA {V : Type} : List (String × V) → String → Option V
  | [], _ => none
  | (k', v) :: rest, k => if k' == k then some v else lookupA rest k

/-- The value the last fragment containing `k` assigns to it (the
"later overwrites earlier" semantics of the spec): a later fragment's
binding shadows every earlier one. -/
def lastAssigned {V : Type} : List (List (String × V)) → String → Option V
  | [], _ => none
  | e :: rest, k => ((lastAssigned rest k).orElse fun _ => lookupA e k)

/-- Key lookup in an extraction result; an error result has no keys. -/
def resultLookup {V : Type} : CallResult V → String → Option V
  | .success m, k => lookupA m k
  | .errorResult _ _ _, _ => none

/-- The merge step restricted to dictionary fragments. -/
def mergeFrag {V : Type} (acc e : List (String × V)) : List (String × V) :=
  if acc.isEmpty then e else dictUpdate acc e

/-- The value the last pair with key `k` in a single fragment assigns
(Python `dict(e)[k]` for a pair list `e` with possibly repeated keys):
a later pair shadows every earlier one. -/
def lastVal {V : Type} : List (String × V) → String → Option V
  | [], _ => none
  | p :: rest, k => ((lastVal rest k).orElse fun _ => if p.1 == k then some p.2 else none)

/-! Section: Discovery and connection caching
(`_get_httpx_client` lines 43–118, `_connect_to_agent` lines 120–142,
`discover_all_agents` lines 203–231, `send_task_to_architect_agent`
lines 497–506, `orchestrator._ensure_connected` lines 71–98)

Network effects are passed in: a discovery call is an
`Except String AgentCardM` (raises or returns a card), and httpx clients
are numbered by a counter in the state. -/

/-- The fields of an agent card the host code touches. -/
structure AgentCardM where
  name : String
  url : String
  deriving Repr, DecidableEq

/-- An `A2AClient`, which captures the agent card it was constructed with;
requests go to `agent_card.url`. -/
structure ClientM where
  agent_card : AgentCardM
  deriving Repr, DecidableEq

/-- Embedding of `_connect_to_agent`: resolve the card at `base_url` (propagating a
discovery failure), then overwrite the discovered card's URL with the
supplied base URL before constructing the client. -/
def connectToAgent (base_url : String) (discovery : Except String AgentCardM) :
    Except String (ClientM × AgentCardM) :=
  match discovery with
  | .error e => .error e
  | .ok agent_card =>
    let card := { agent_card with url := base_url }
    .ok ({ agent_card := card }, card)

/-- One agent's block of `discover_all_agents` (e.g. lines 203–211): with no
URL the error is logged and the slot is left as it was; with a URL the
connection is attempted and, on failure, the exception is caught, logged,
and the slot again left as it was — no fallback client is constructed. -/
def connectSlot (prev : Option ClientM × Option AgentCardM) (url : Option String)
    (discovery : Except String AgentCardM) : Option ClientM × Option AgentCardM :=
  match url with
  | none => prev
  | some u =>
    match connectToAgent u discovery with
    | .ok (client, card) => (some client, some card)
    | .error _ => prev

/-- Embedding of `send_task_to_architect_agent`: when no client exists, discovery is
re-attempted once; if the slot is still empty the call raises
`RuntimeError("Architect Agent is not available")`, otherwise the task is
submitted through the client. -/
def sendTaskToArchitect (client : Option ClientM) (url : Option String)
    (discovery : Except String AgentCardM) : Except String ClientM :=
  let client1 := if client.isNone then (connectSlot (client, none) url discovery).1 else client
  match client1 with
  | none => .error "Architect Agent is not available"
  | some c => .ok c

/-- Python `a or b` on optional strings (an empty string is falsy). -/
def pyOrS : Option String → Option String → Option String
  | some s, b => if s.isEmpty then b else some s
  | none, b => b

/-- Python truthiness of an optional string. -/
def truthyS : Option String → Bool
  | none => false
  | some s => !s.isEmpty

/-- The mutable state of `RemoteAgentConnection` relevant to client caching;
httpx clients and per-agent clients/cards are identified by numbers issued
from `next_client_id`. -/
structure ConnState where
  httpx_client : Option Nat
  current_api_key : Option String
  stored_api_key : Option String
  architect_client : Option Nat
  developer_client : Option Nat
  tester_client : Option Nat
  architect_card : Option Nat
  developer_card : Option Nat
  tester_card : Option Nat
  next_client_id : Nat
  deriving Repr, DecidableEq

/-- Line 46: `api_key or self._stored_api_key or os.getenv(...)`. -/
def resolvedKey (st : ConnState) (api_key env_key : Option String) : Option String :=
  pyOrS api_key (pyOrS st.stored_api_key env_key)

/-- Embedding of `_get_httpx_client` (lines 43–118): reuse the cached client when the
resolved key is unchanged; otherwise reset the agent clients when the key
changed, create a fresh client and remember the key. -/
def getHttpxClient (st : ConnState) (api_key env_key : Option String) : ConnState × Nat :=
  let resolved := resolvedKey st api_key env_key
  let api_key_changed := st.httpx_client.isSome && st.current_api_key.isSome
      && !(st.current_api_key == resolved)
  if st.httpx_client.isSome && !api_key_changed && st.current_api_key == resolved then
    (st, st.httpx_client.getD 0)
  else
    let st1 := if api_key_changed then
        { st with
          architect_client := none, developer_client := none, tester_client := none,
          architect_card := none, developer_card := none, tester_card := none }
      else st
    let cid := st1.next_client_id
    let st2 := { st1 with
      httpx_client := some cid, current_api_key := resolved,
      next_client_id := cid + 1,
      stored_api_key := if truthyS resolved then resolved else st1.stored_api_key }
    (st2, cid)

/-- The orchestrator's connection bookkeeping (`_agents_connected`,
`_last_agent_urls`). -/
structure OrchState where
  conn : ConnState
  agents_connected : Bool
  last_agent_urls : Option (List (String × String))
  deriving Repr, DecidableEq

/-- Line 74: `{k: v for k, v in (agent_urls or {}).items() if v} if
agent_urls else None`; URL dictionaries are embedded as insertion-ordered
pair lists (the same argument always normalizes to the same list). -/
def normalizeUrls (agent_urls : Option (List (String × Option String))) :
    Option (List (String × String)) :=
  match agent_urls with
  | none => none
  | some l =>
    if l.isEmpty then none
    else some (l.filterMap fun p =>
      match p.2 with
      | some v => if v.isEmpty then none else some (p.1, v)
      | none => none)

/-- Embedding of `_ensure_connected` (lines 71–98): reconnect only when not yet
connected, or when a truthy normalized URL set differs from the one last
used.  `discover` embeds the effect of `discover_all_agents` on the
connection state; the returned flag records whether it was called. -/
def ensureConnected (st : OrchState) (agent_urls : Option (List (String × Option String)))
    (discover : ConnState → ConnState) : OrchState × Bool :=
  let normalized := normalizeUrls agent_urls
  let should_reconnect :=
    if !st.agents_connected then true
    else match normalized with
      | none => false
      | some nu =>
        if nu.isEmpty then false
        else !(st.last_agent_urls == some nu)
  if should_reconnect then
    ({ conn := discover st.conn, agents_connected := true, last_agent_urls := normalized }, true)
  else (st, false)

/-! Section: The orchestrator workflow (`orchestrator.py`)

A stage call either raises or returns a dictionary.  The dictionary fields
the orchestrator reads are embedded in `AgentResponse`: the top-level
`error`, the stage-specific payload field (`plan` / `code` /
`test_results`), `status_code`, the truthiness of `non_retryable`, and the
optional `output` wrapper holding its own payload and error.  Payload
values are abstract strings; the orchestrator only tests their Python
truthiness (`truthyS`) and passes them through. -/

/-- The `output` wrapper's fields. -/
structure OutputData where
  payload : Option String
  error : Option String
  deriving Repr, DecidableEq

/-- A stage response dictionary, as read by the orchestrator. -/
structure AgentResponse where
  error : Option String
  payload : Option String
  status_code : Option Nat
  non_retryable : Bool
  output : Option OutputData
  deriving Repr, DecidableEq

/-- Python `str(result.get("error", ""))`. -/
def errStr (r : AgentResponse) : String := r.error.getD ""

/-- Embedding of `_is_403_error` (lines 19–32): explicit status code 403; or the
non-retryable flag together with "403" in the error; or "403"/"forbidden"
in the lowercased error message. -/
def is403Error (r : AgentResponse) : Bool :=
  r.status_code == some 403
  || (r.non_retryable && strContains (errStr r) "403")
  || strContains (lowerStr (errStr r)) "403"
  || strContains (lowerStr (errStr r)) "forbidden"

/-- The dictionary `process_development_request` returns; absent keys are
`none` / `false`. -/
structure WfRecord where
  status : String
  message : Option String
  agent : Option String
  status_code : Option Nat
  non_retryable : Bool
  plan : Option String
  code : Option String
  test_results : Option String
  user_request : Option String
  workflow_id : String
  deriving Repr, DecidableEq

/-- The 403 message assembled by `_handle_agent_error` (lines 41–47). -/
def authErrorMessage (agent_name : String) : String :=
  agent_name ++ " agent returned 403 Forbidden. This indicates an authentication/authorization failure. Please check: 1) API key is valid (API_KEY), 2) API key matches the workflow configuration, 3) AgentGuard proxy is properly configured."

/-- An error record with only `status`, `message` and `workflow_id` keys
(the shape of most error returns of `process_development_request`). -/
def baseRecord (workflow_id : String) : WfRecord :=
  { status := "error", message := none, agent := none, status_code := none,
    non_retryable := false, plan := none, code := none, test_results := none,
    user_request := none, workflow_id := workflow_id }

/-- Embedding of `_handle_agent_error` (lines 34–69). -/
def handleAgentError (agent_name : String) (r : AgentResponse) (workflow_id : String) :
    WfRecord :=
  if is403Error r then
    { baseRecord workflow_id with
      message := some (authErrorMessage agent_name), agent := some agent_name,
      status_code := some 403, non_retryable := true }
  else
    { baseRecord workflow_id with
      message := some (r.error.getD "Unknown error"), agent := some agent_name }

/-- Lines 140–146 (and the analogues for code / test results): read the
payload and error from the `output` wrapper when the key is present,
directly from the response otherwise. -/
def extractStage (r : AgentResponse) : Option String × Option String :=
  match r.output with
  | some od => (od.payload, od.error)
  | none => (r.payload, r.error)

/-- A remote stage call: the awaited coroutine raised, or returned a
response dictionary. -/
inductive StageCall where
  | raised (msg : String)
  | returned (r : AgentResponse)
  deriving Repr, DecidableEq

/-- The three stage calls a workflow run would perform, in pipeline order. -/
structure WorkflowInput where
  architect : StageCall
  developer : StageCall
  tester : StageCall
  deriving Repr, DecidableEq

/-- The record built by the outer `except` clause (lines 295–304). -/
def excRecord (workflow_id msg : String) : WfRecord :=
  { baseRecord workflow_id with message := some msg }

/-- Embedding of `process_development_request` (lines 100–304), given the three stage
call outcomes.  Returns the result record and the list of stages invoked
(a stage is invoked when its `send_task_to_*` call is awaited, whether it
returns or raises). -/
def processDevelopmentRequest (workflow_id user_request : String) (inp : WorkflowInput) :
    WfRecord × List String :=
  match inp.architect with
  | .raised m => (excRecord workflow_id m, ["Architect"])
  | .returned r1 =>
    if is403Error r1 then
      (handleAgentError "Architect" r1 workflow_id, ["Architect"])
    else
      let pe := extractStage r1
      if truthyS pe.2 then
        ({ baseRecord workflow_id with message := pe.2 }, ["Architect"])
      else if !truthyS pe.1 then
        ({ baseRecord workflow_id with message := some "No architectural plan generated" },
          ["Architect"])
      else
        match inp.developer with
        | .raised m => (excRecord workflow_id m, ["Architect", "Developer"])
        | .returned r2 =>
          if is403Error r2 then
            ({ handleAgentError "Developer" r2 workflow_id with plan := pe.1 },
              ["Architect", "Developer"])
          else
            let ce := extractStage r2
            if truthyS ce.2 then
              ({ baseRecord workflow_id with
                  message := some ("Code generation failed: " ++ ce.2.getD ""),
                  plan := pe.1 }, ["Architect", "Developer"])
            else if !truthyS ce.1 then
              ({ baseRecord workflow_id with
                  message := some "No code generated",
                  plan := pe.1 }, ["Architect", "Developer"])
            else
              match inp.tester with
              | .raised m => (excRecord workflow_id m, ["Architect", "Developer", "Tester"])
              | .returned r3 =>
                if is403Error r3 then
                  ({ handleAgentError "Tester" r3 workflow_id with
                      plan := pe.1, code := ce.1 }, ["Architect", "Developer", "Tester"])
                else
                  let te := extractStage r3
                  if truthyS te.2 then
                    ({ baseRecord workflow_id with
                        message := some ("Testing failed: " ++ te.2.getD ""),
                        plan := pe.1, code := ce.1 }, ["Architect", "Developer", "Tester"])
                  else if !truthyS te.1 then
                    ({ baseRecord workflow_id with
                        message := some "No test results generated",
                        plan := pe.1, code := ce.1 }, ["Architect", "Developer", "Tester"])
                  else
                    ({ status := "success", message := none, agent := none,
                        status_code := none, non_retryable := false, plan := pe.1,
                        code := ce.1, test_results := te.1,
                        user_request := some user_request, workflow_id := workflow_id },
                      ["Architect", "Developer", "Tester"])

/-- A returned stage response the orchestrator treats as failing, in the
order the code tests it: the 403 classification, a truthy reported error,
or a missing/falsy required payload. -/
def stageFails (r : AgentResponse) : Bool :=
  is403Error r || truthyS (extractStage r).2 || !truthyS (extractStage r).1

/-- Concrete end-to-end scenario: the architect succeeds with plan "P", the
developer call returns the non-retryable 403 dictionary that
`_send_and_collect_response` produces, and the tester would succeed. -/
def devForbiddenRun : WorkflowInput :=
  ⟨.returned ⟨none, some "P", none, false, none⟩,
   .returned ⟨some forbiddenMsg, none, some 403, true, none⟩,
   .returned ⟨none, some "T", none, false, none⟩⟩

/-! Section: The REST task wrapper (`__main__.py` lines 78–149) -/

/-- One entry of `rest_task_storage`. -/
structure TaskEntry where
  task_id : String
  status : String
  user_request : String
  result : Option WfRecord
  error : Option String
  deriving Repr, DecidableEq

/-- The entry `POST /send/task` creates (lines 96–102). -/
def initialTaskEntry (task_id user_request : String) : TaskEntry :=
  { task_id := task_id, status := "pending", user_request := user_request,
    result := none, error := none }

/-- The orchestrator call as `process_development_task` observes it. -/
inductive OrchOutcome where
  | returned (r : WfRecord)
  | raised (msg : String)
  deriving Repr, DecidableEq

/-- Embedding of `process_development_task` (lines 133–149): the entry passes through
"running" and ends "completed" with the returned record stored as the
result, or "failed" with the stringified exception, whatever the record
says.  The terminal entry is modelled. -/
def processDevelopmentTask (entry : TaskEntry) (outcome : OrchOutcome) : TaskEntry :=
  match outcome with
  | .returned r => { entry with status := "completed", result := some r }
  | .raised m => { entry with status := "failed", error := some m }

/-- The body of `GET /send/task/{task_id}` (lines 113–130). -/
structure TaskStatusResponse where
  task_id : String
  status : String
  result : Option WfRecord
  error : Option String
  deriving Repr, DecidableEq

/-- Embedding of `get_development_task` (lines 113–130): the result is attached only for
a "completed" entry, the error only for a "failed" one. -/
def getDevelopmentTask (e : TaskEntry) : TaskStatusResponse :=
  if e.status == "completed" then ⟨e.task_id, e.status, e.result, none⟩
  else if e.status == "failed" then
    ⟨e.task_id, e.status, none, some (e.error.getD "Unknown error")⟩
  else ⟨e.task_id, e.status, none, none⟩

/-- Unfolding of the three-iteration retry loop. -/
theorem sendAndCollect_eq {V : Type} (outcomes : Nat → AttemptOutcome V) :
    sendAndCollect outcomes =
      match handleAttempt 0 (outcomes 0) with
      | .done r => ⟨r, 1, []⟩
      | .retry w0 =>
        match handleAttempt 1 (outcomes 1) with
        | .done r => ⟨r, 2, [w0]⟩
        | .retry w1 =>
          match handleAttempt 2 (outcomes 2) with
          | .done r => ⟨r, 3, [w0, w1]⟩
          | .retry w2 =>
            ⟨.errorResult "Failed after all retries" none false, 3, [w0, w1, w2]⟩ := by
  show runFrom outcomes 3 0 [] = _
  cases h0 : handleAttempt 0 (outcomes 0) with
  | done r => simp [runFrom, h0]
  | retry w0 =>
    cases h1 : handleAttempt 1 (outcomes 1) with
    | done r => simp [runFrom, h0, h1]
    | retry w1 =>
      cases h2 : handleAttempt 2 (outcomes 2) with
      | done r => simp [runFrom, h0, h1, h2]
      | retry w2 => simp [runFrom, h0, h1, h2]

/-- An authorization-failure outcome makes the loop body return the
non-retryable 403 dictionary, whatever the attempt index. -/
theorem handleAttempt_auth {V : Type} (attempt : Nat) (o : AttemptOutcome V)
    (h : isAuthFailure o = true) :
    handleAttempt attempt o = .done (forbiddenResult V) := by
  cases o with
  | bodyReturn r => simp [isAuthFailure] at h
  | httpStatusError s m =>
    simp only [isAuthFailure] at h
    simp only [handleAttempt, h, if_true]
  | httpError m =>
    simp only [isAuthFailure] at h
    simp only [handleAttempt, h, if_true]
  | otherError m =>
    simp only [isAuthFailure] at h
    simp only [handleAttempt, h, if_true]

/-- A retryable-class outcome on a non-final attempt sleeps
`retry_delay * 2 ^ attempt` and continues. -/
theorem handleAttempt_retry_step {V : Type} (attempt : Nat) (o : AttemptOutcome V)
    (h : isRetryableSignal o = true) (hlt : attempt < max_retries - 1) :
    handleAttempt attempt o = .retry (retry_delay * 2 ^ attempt) := by
  have hd : decide (attempt < max_retries - 1) = true := decide_eq_true hlt
  cases o with
  | bodyReturn r => simp [isRetryableSignal] at h
  | httpStatusError s m =>
    simp only [isRetryableSignal, Bool.or_eq_true, beq_iff_eq] at h
    rcases h with h | h
    · subst h; simp [handleAttempt, hd]
    · subst h; simp [handleAttempt, hd]
  | httpError m =>
    simp only [isRetryableSignal] at h
    have hx : (strContains m "403" || strContains m "Forbidden") = false := by
      simpa using h
    have hlt2 : attempt + 1 < max_retries := by
      unfold max_retries at hlt ⊢
      omega
    simp [handleAttempt, hx, hd, hlt2]
  | otherError m =>
    simp only [isRetryableSignal, Bool.and_eq_true] at h
    obtain ⟨h1, h2⟩ := h
    have hx : (strContains m "403" || strContains m "Forbidden") = false := by
      simpa using h1
    simp [handleAttempt, hx, h2, hd]

/-- On the final attempt a retryable-class outcome is not retried: its error
dictionary is returned as is, with no attempt count added. -/
theorem handleAttempt_final {V : Type} (o : AttemptOutcome V)
    (h : isRetryableSignal o = true) :
    handleAttempt (max_retries - 1) o = .done (finalError o) := by
  cases o with
  | bodyReturn r => simp [isRetryableSignal] at h
  | httpStatusError s m =>
    simp only [isRetryableSignal, Bool.or_eq_true, beq_iff_eq] at h
    rcases h with h | h
    · subst h; simp [handleAttempt, finalError, max_retries]
    · subst h; simp [handleAttempt, finalError, max_retries]
  | httpError m =>
    simp only [isRetryableSignal] at h
    have hx : (strContains m "403" || strContains m "Forbidden") = false := by
      simpa using h
    simp [handleAttempt, finalError, hx, max_retries]
  | otherError m =>
    simp only [isRetryableSignal, Bool.and_eq_true] at h
    obtain ⟨h1, h2⟩ := h
    have hx : (strContains m "403" || strContains m "Forbidden") = false := by
      simpa using h1
    simp [handleAttempt, finalError, hx, max_retries]

/-- C1 counterexample: an `httpx.HTTPStatusError` with response status 503
whose message contains "403" (here, inside the request URL) is an "error
whose message contains 403" in the claim's sense, yet the code retries it to
exhaustion (3 attempts, sleeping 2 s and 4 s) and surfaces an error that is
not marked non-retryable — not one attempt, and not marked non-retryable. -/
theorem c1_status_error_with_403_text_is_retried :
    strContains "Server error 503 for url http://proxy/403/submit" "403" = true ∧
    sendAndCollect (fun _ =>
        (.httpStatusError (some 503) "Server error 503 for url http://proxy/403/submit" :
          AttemptOutcome Nat)) =
      ⟨.errorResult "HTTP 503 error: Server error 503 for url http://proxy/403/submit"
          (some 503) false, 3, [2, 4]⟩ := by
  exact ⟨by decide, by decide⟩

/-- C1 (amended): an authorization failure — an HTTP-status-carrying error
with status code 403, or an error of the other handled classes whose message
contains "403" or "Forbidden" — on the first attempt causes exactly one
attempt total: the loop immediately returns the error dictionary marked
non-retryable (`status_code = 403`, `non_retryable = true`), performing no
retry and no sleep. -/
theorem auth_failure_single_attempt {V : Type} (outcomes : Nat → AttemptOutcome V)
    (h : isAuthFailure (outcomes 0) = true) :
    sendAndCollect outcomes = ⟨forbiddenResult V, 1, []⟩ := by
  rw [sendAndCollect_eq, handleAttempt_auth 0 (outcomes 0) h]

/-- Witness for `auth_failure_single_attempt` at a concrete outcome. -/
theorem auth_failure_single_attempt_witness :
    isAuthFailure (.otherError "403 Client Error: Forbidden" : AttemptOutcome Nat) = true ∧
    sendAndCollect (fun _ => (.otherError "403 Client Error: Forbidden" : AttemptOutcome Nat)) =
      ⟨forbiddenResult Nat, 1, []⟩ :=
  ⟨by decide,
   auth_failure_single_attempt (fun _ => .otherError "403 Client Error: Forbidden") (by decide)⟩

/-- C3 counterexample: with a service-unavailable error on every attempt the
call performs its 3 attempts but only two delays, 2 s and 4 s — never the
8 s the claim lists — and the surfaced dictionary is exactly
`{"error": "HTTP 503 error: boom", "status_code": 503}`, which carries no
attempt count. -/
theorem c3_only_two_delays_no_attempt_count :
    sendAndCollect (fun _ => (.httpStatusError (some 503) "boom" : AttemptOutcome Nat)) =
      ⟨.errorResult "HTTP 503 error: boom" (some 503) false, 3, [2, 4]⟩ ∧
    ([2, 4] : List Nat) ≠ [2, 4, 8] := by
  exact ⟨by decide, by decide⟩

/-- C3 (amended): three consecutive retryable-class outcomes (503 signal,
network error, or statusless error) make the call perform exactly
`max_retries = 3` attempts with strictly increasing exponential delays
`retry_delay * 2 ^ attempt` between attempts — 2 s then 4 s; no delay
follows the final attempt — after which the final outcome's error
dictionary is surfaced unchanged, without an attempt count. -/
theorem retryable_three_attempts_backoff {V : Type} (outcomes : Nat → AttemptOutcome V)
    (h0 : isRetryableSignal (outcomes 0) = true)
    (h1 : isRetryableSignal (outcomes 1) = true)
    (h2 : isRetryableSignal (outcomes 2) = true) :
    sendAndCollect outcomes = ⟨finalError (outcomes 2), 3, [2, 4]⟩ := by
  have s2 : handleAttempt 2 (outcomes 2) = .done (finalError (outcomes 2)) :=
    handleAttempt_final (outcomes 2) h2
  rw [sendAndCollect_eq, handleAttempt_retry_step 0 (outcomes 0) h0 (by decide),
    handleAttempt_retry_step 1 (outcomes 1) h1 (by decide), s2]
  rfl

/-- Witness for `retryable_three_attempts_backoff` at a concrete outcome
stream. -/
theorem retryable_three_attempts_backoff_witness :
    sendAndCollect (fun _ => (.httpError "connection reset" : AttemptOutcome Nat)) =
      ⟨.errorResult "HTTP error: connection reset" none false, 3, [2, 4]⟩ := by
  have h := retryable_three_attempts_backoff
    (fun _ => (.httpError "connection reset" : AttemptOutcome Nat))
    (by decide) (by decide) (by decide)
  rw [h]
  decide

/-- Once the clock has passed the deadline the loop exits at once, having
fetched nothing further. -/
theorem pollLoopGo_done {V : Type} (fetches : Nat → FetchOutcome V)
    (deadline fuel now k : Nat) (h : deadline ≤ now) :
    pollLoopGo fetches deadline fuel now k = (.timeout, k) := by
  cases fuel with
  | zero => rfl
  | succ m =>
    unfold pollLoopGo
    rw [if_neg (by omega)]

/-- C2: because the source sets `end_time = 300` and compares it against
`time.time()` (seconds since the Unix epoch, far larger than 300 at any
real moment), the poll phase performs zero fetches on any non-terminal
submission response and immediately returns the timeout dictionary — even
when the very first status check would have reported "completed". -/
theorem poll_phase_performs_no_fetch {V : Type} (state : Option String)
    (failMessage : Option String) (task : V) (now : Nat)
    (fetches : Nat → FetchOutcome V)
    (hc : (state == some "completed") = false)
    (hf : (state == some "failed") = false)
    (hnow : end_time ≤ now) :
    awaitTask state failMessage task now fetches = (.timeout, 0) := by
  have hdone := pollLoopGo_done fetches end_time end_time now 0 hnow
  simp [awaitTask, hc, hf, hdone]

/-- Witness for `poll_phase_performs_no_fetch`: a "working" submission
response, a clock value of a 2025 date, and a backend whose first status
check would report "completed". -/
theorem poll_phase_performs_no_fetch_witness :
    awaitTask (some "working") none (7 : Nat) 1760000000
        (fun _ => .fetched (some "completed") none 7) = (.timeout, 0) :=
  poll_phase_performs_no_fetch (some "working") none 7 1760000000 _
    (by decide) (by decide) (by decide)

/-- Supporting: with the deadline the spec describes (relative to the
current clock, `time.time() + 300`), the loop would behave as claimed:
N non-terminal checks followed by a "completed" one yield N+1 fetches and
the completed task.  This isolates `end_time = 300` as the slip. -/
theorem pollLoopGo_intended_n_plus_one {V : Type} (fetches : Nat → FetchOutcome V)
    (deadline : Nat) (n : Nat) (fm : Option String) (task : V) :
    ∀ fuel now k, n < fuel → now + poll_sleep * n < deadline →
      (∀ i, i < n → nonTerminalFetch (fetches (k + i)) = true) →
      fetches (k + n) = .fetched (some "completed") fm task →
      pollLoopGo fetches deadline fuel now k = (.completed task, k + n + 1) := by
  induction n with
  | zero =>
    intro fuel now k hfuel hnow hnt hterm
    cases fuel with
    | zero => omega
    | succ m =>
      unfold pollLoopGo
      rw [if_pos (by omega)]
      rw [show k + 0 = k from rfl] at hterm
      rw [hterm]
      simp
  | succ n ih =>
    intro fuel now k hfuel hnow hnt hterm
    cases fuel with
    | zero => omega
    | succ m =>
      have hstep : now + poll_sleep + poll_sleep * n < deadline := by
        have : poll_sleep * (n + 1) = poll_sleep * n + poll_sleep := by ring
        omega

      have h0 : nonTerminalFetch (fetches k) = true := by
        have := hnt 0 (by omega)
        simpa using this
      have hnt' : ∀ i, i < n → nonTerminalFetch (fetches (k + 1 + i)) = true := by
        intro i hi
        have := hnt (i + 1) (by omega)
        rw [show k + (i + 1) = k + 1 + i from by omega] at this
        exact this
      have hterm' : fetches (k + 1 + n) = .fetched (some "completed") fm task := by
        rw [show k + 1 + n = k + (n + 1) from by omega]
        exact hterm
      have hrec := ih m (now + poll_sleep) (k + 1) (by omega) hstep hnt' hterm'
      unfold pollLoopGo
      rw [if_pos (by omega)]
      cases hfk : fetches k with
      | fetchError =>
        rw [hrec]
        rw [show k + 1 + n + 1 = k + (n + 1) + 1 from by omega]
      | fetched st fm2 t2 =>
        rw [hfk] at h0
        simp only [nonTerminalFetch, Bool.and_eq_true, Bool.not_eq_true'] at h0
        obtain ⟨hc1, hc2⟩ := h0
        simp only [hc1, hc2, Bool.false_eq_true, if_false]
        rw [hrec]
        rw [show k + 1 + n + 1 = k + (n + 1) + 1 from by omega]

/-- Lookup distributes over append, preferring the left list. -/
theorem lookupA_append {V : Type} (d e : List (String × V)) (k : String) :
    lookupA (d ++ e) k = ((lookupA d k).orElse fun _ => lookupA e k) := by
  induction d with
  | nil => simp [lookupA]
  | cons p rest ih =>
    obtain ⟨a, b⟩ := p
    by_cases h : a = k
    · subst h; simp [lookupA]
    · have hf : (a == k) = false := beq_eq_false_iff_ne.mpr h
      simp [lookupA, hf, ih]

/-- A key absent from the key list looks up to nothing. -/
theorem lookupA_eq_none_of_not_mem {V : Type} (e : List (String × V)) (k : String)
    (h : k ∉ e.map Prod.fst) : lookupA e k = none := by
  induction e with
  | nil => rfl
  | cons p rest ih =>
    obtain ⟨a, b⟩ := p
    simp only [List.map_cons, List.mem_cons, not_or] at h
    obtain ⟨h1, h2⟩ := h
    have hf : (a == k) = false := beq_eq_false_iff_ne.mpr fun hh => h1 hh.symm
    simp [lookupA, hf, ih h2]

/-- A key that some pair carries looks up to something. -/
theorem lookupA_isSome_of_any {V : Type} (d : List (String × V)) (k : String)
    (h : (d.any fun p => p.1 == k) = true) : (lookupA d k).isSome = true := by
  induction d with
  | nil => simp at h
  | cons p rest ih =>
    obtain ⟨a, b⟩ := p
    by_cases hak : a = k
    · subst hak; simp [lookupA]
    · have hf : (a == k) = false := beq_eq_false_iff_ne.mpr hak
      simp only [List.any_cons, hf, Bool.false_or] at h
      simp [lookupA, hf, ih h]

/-- Lookup through the overwrite map of `dictInsert`. -/
theorem lookupA_map_overwrite {V : Type} (d : List (String × V)) (k' : String) (v : V)
    (k : String) :
    lookupA (d.map fun p => if p.1 == k' then (p.1, v) else p) k
      = (lookupA d k).map fun w => if k' == k then v else w := by
  induction d with
  | nil => rfl
  | cons p rest ih =>
    obtain ⟨a, b⟩ := p
    rw [List.map_cons]
    cases h1 : a == k' with
    | true =>
      rw [if_pos rfl]
      cases h2 : a == k with
      | true =>
        have hx : lookupA (((a, b).1, v) ::
              (rest.map fun p => if p.1 == k' then (p.1, v) else p)) k
            = some v := by simp [lookupA, h2]
        have hy : lookupA ((a, b) :: rest) k = some b := by simp [lookupA, h2]
        have hk : (k' == k) = true := by
          rw [← eq_of_beq h1]; exact h2
        rw [hx, hy]
        simp [hk]
      | false =>
        have hx : lookupA (((a, b).1, v) ::
              (rest.map fun p => if p.1 == k' then (p.1, v) else p)) k
            = lookupA (rest.map fun p => if p.1 == k' then (p.1, v) else p) k := by
          simp [lookupA, h2]
        have hy : lookupA ((a, b) :: rest) k = lookupA rest k := by simp [lookupA, h2]
        rw [hx, hy, ih]
    | false =>
      rw [if_neg (by simp)]
      cases h2 : a == k with
      | true =>
        have hk : (k' == k) = false := by
          rw [← eq_of_beq h2]
          cases hx : k' == a
          · rfl
          · exact absurd (beq_eq_false_iff_ne.mp h1) (by simp [(eq_of_beq hx).symm])
        have hx : lookupA ((a, b) :: (rest.map fun p => if p.1 == k' then (p.1, v) else p)) k
            = some b := by simp [lookupA, h2]
        have hy : lookupA ((a, b) :: rest) k = some b := by simp [lookupA, h2]
        rw [hx, hy]
        simp [hk]
      | false =>
        have hx : lookupA ((a, b) :: (rest.map fun p => if p.1 == k' then (p.1, v) else p)) k
            = lookupA (rest.map fun p => if p.1 == k' then (p.1, v) else p) k := by
          simp [lookupA, h2]
        have hy : lookupA ((a, b) :: rest) k = lookupA rest k := by simp [lookupA, h2]
        rw [hx, hy, ih]

/-- A key no pair carries looks up to nothing. -/
theorem lookupA_eq_none_of_any_false {V : Type} (d : List (String × V)) (k' : String)
    (h : (d.any fun p => p.1 == k') = false) : lookupA d k' = none := by
  induction d with
  | nil => rfl
  | cons p rest ih =>
    obtain ⟨a, b⟩ := p
    rw [List.any_cons] at h
    have h1 : (a == k') = false := by
      cases hx : a == k'
      · rfl
      · rw [hx] at h; simp at h
    have h2 : (rest.any fun p => p.1 == k') = false := by
      cases hx : rest.any fun p => p.1 == k'
      · rfl
      · rw [hx] at h; simp at h
    have hc : lookupA ((a, b) :: rest) k' = lookupA rest k' := by simp [lookupA, h1]
    rw [hc]
    exact ih h2

/-- Insertion makes `(k', v)` the binding for `k'` and changes nothing
else. -/
theorem lookupA_dictInsert {V : Type} (d : List (String × V)) (k' : String) (v : V)
    (k : String) :
    lookupA (dictInsert d (k', v)) k = if k' == k then some v else lookupA d k := by
  unfold dictInsert
  by_cases hany : (d.any fun p => p.1 == k') = true
  · rw [if_pos hany, lookupA_map_overwrite]
    by_cases hk : k' = k
    · subst hk
      have hs := lookupA_isSome_of_any d k' hany
      cases hl : lookupA d k' with
      | none => rw [hl] at hs; simp at hs
      | some w => simp [hl]
    · have hf : (k' == k) = false := beq_eq_false_iff_ne.mpr hk
      cases hl : lookupA d k <;> simp [hl, hf]
  · have hany' : (d.any fun p => p.1 == k') = false := by
      cases hx : d.any fun p => p.1 == k'
      · rfl
      · exact absurd hx hany
    rw [if_neg hany, lookupA_append]
    by_cases hk : k' = k
    · subst hk
      have hnone : lookupA d k' = none := lookupA_eq_none_of_any_false d k' hany'
      simp [hnone, lookupA]
    · have hf : (k' == k) = false := beq_eq_false_iff_ne.mpr hk
      cases hl : lookupA d k <;> simp [hl, lookupA, hf]

/-- Lookup after `dictUpdate`: `e`'s last binding for `k` wins, else `d`'s. -/
theorem lookupA_dictUpdate {V : Type} (e d : List (String × V)) (k : String) :
    lookupA (dictUpdate d e) k = ((lastVal e k).orElse fun _ => lookupA d k) := by
  induction e generalizing d with
  | nil => simp [dictUpdate, lastVal]
  | cons p rest ih =>
    obtain ⟨k', v⟩ := p
    show lookupA (dictUpdate (dictInsert d (k', v)) rest) k = _
    rw [ih, lookupA_dictInsert]
    simp only [lastVal]
    cases hL : lastVal rest k with
    | some w => rfl
    | none => cases hk : k' == k <;> simp [hk]

/-- With unique keys (the shape `json.loads` guarantees) the last and the
first binding coincide. -/
theorem lastVal_eq_lookupA_of_nodup {V : Type} (e : List (String × V)) (k : String)
    (h : (e.map Prod.fst).Nodup) : lastVal e k = lookupA e k := by
  induction e with
  | nil => rfl
  | cons p rest ih =>
    obtain ⟨a, b⟩ := p
    simp only [List.map_cons, List.nodup_cons] at h
    obtain ⟨h1, h2⟩ := h
    simp only [lastVal, ih h2]
    cases hak : a == k with
    | true =>
      have e1 : a = k := eq_of_beq hak
      subst e1
      have hnone : lookupA rest a = none := lookupA_eq_none_of_not_mem rest a h1
      simp [hnone, lookupA]
    | false =>
      have hy : lookupA ((a, b) :: rest) k = lookupA rest k := by simp [lookupA, hak]
      rw [hy]
      cases hl : lookupA rest k <;> simp [hak]

/-- Folding all parts through `mergeStep` only ever consumes the dictionary
fragments. -/
theorem foldl_mergeStep_eq {V : Type} (ps : List (PartParse V)) (acc : List (String × V)) :
    ps.foldl mergeStep acc = (dictFragments ps).foldl mergeFrag acc := by
  induction ps generalizing acc with
  | nil => rfl
  | cons p rest ih =>
    cases p <;> simp [mergeStep, dictFragments, mergeFrag, ih]

/-- Lookup in the merged result of a fragment list: the last fragment
assigning a key wins, then the accumulator. -/
theorem lookupA_foldl_mergeFrag {V : Type} (frs : List (List (String × V))) (k : String) :
    ∀ acc : List (String × V), (∀ e ∈ frs, (e.map Prod.fst).Nodup) →
      lookupA (frs.foldl mergeFrag acc) k
        = ((lastAssigned frs k).orElse fun _ => lookupA acc k) := by
  induction frs with
  | nil => intro acc _; simp [lastAssigned]
  | cons e rest ih =>
    intro acc hnd
    have hce : (e.map Prod.fst).Nodup := hnd e (List.mem_cons_self e rest)
    have hcr : ∀ x ∈ rest, (x.map Prod.fst).Nodup := fun x hx =>
      hnd x (List.mem_cons_of_mem e hx)
    show lookupA (rest.foldl mergeFrag (mergeFrag acc e)) k = _
    rw [ih (mergeFrag acc e) hcr]
    simp only [lastAssigned]
    have hme : lookupA (mergeFrag acc e) k = ((lookupA e k).orElse fun _ => lookupA acc k) := by
      cases acc with
      | nil =>
        simp only [mergeFrag, List.isEmpty_nil, if_true]
        cases lookupA e k <;> simp [lookupA]
      | cons q qs =>
        simp only [mergeFrag, List.isEmpty_cons, Bool.false_eq_true, if_false]
        rw [lookupA_dictUpdate, lastVal_eq_lookupA_of_nodup e k hce]
    rw [hme]
    cases lastAssigned rest k <;> cases lookupA e k <;> rfl

/-- C6: result extraction merges the parsed dictionary fragments of all
artifact parts key-wise with later fragments overwriting earlier ones on a
key collision (every key of the canonical result holds the value of the
last fragment assigning it), and when no part of any artifact yields a
parseable mapping the function returns the explicit extraction error
`{"error": "No result artifacts collected"}` instead of an empty success. -/
theorem extraction_merge_last_wins {V : Type} (artifacts : List (List (PartParse V)))
    (hnd : ∀ e ∈ dictFragments artifacts.flatten, (e.map Prod.fst).Nodup) :
    (dictFragments artifacts.flatten = [] →
      extractFinalResult artifacts = .errorResult "No result artifacts collected" none false)
    ∧ ∀ k, resultLookup (extractFinalResult artifacts) k
        = lastAssigned (dictFragments artifacts.flatten) k := by
  have hmerge : (artifacts.flatten).foldl mergeStep ([] : List (String × V))
      = (dictFragments artifacts.flatten).foldl mergeFrag [] :=
    foldl_mergeStep_eq _ _
  have hlook : ∀ k, lookupA ((artifacts.flatten).foldl mergeStep ([] : List (String × V))) k
      = lastAssigned (dictFragments artifacts.flatten) k := by
    intro k
    rw [hmerge, lookupA_foldl_mergeFrag (dictFragments artifacts.flatten) k [] hnd]
    cases lastAssigned (dictFragments artifacts.flatten) k <;> rfl
  constructor
  · intro h0
    simp only [extractFinalResult]
    rw [hmerge, h0]
    rfl
  · intro k
    simp only [extractFinalResult]
    by_cases he : ((artifacts.flatten).foldl mergeStep ([] : List (String × V))).isEmpty = true
    · rw [if_pos he]
      have hm : (artifacts.flatten).foldl mergeStep ([] : List (String × V)) = [] := by
        cases hx : (artifacts.flatten).foldl mergeStep ([] : List (String × V)) with
        | nil => rfl
        | cons a b => rw [hx] at he; simp at he
      simp only [resultLookup]
      rw [← hlook k, hm]
      rfl
    · rw [if_neg he]
      simp only [resultLookup]
      exact hlook k

/-- Witness for `extraction_merge_last_wins`: two artifacts whose dictionary
fragments collide on "plan"; the later value 2 wins and "code" is kept. -/
theorem extraction_merge_last_wins_witness :
    resultLookup (extractFinalResult
        [[PartParse.dict [("plan", (1 : Nat))], PartParse.nonText],
         [PartParse.dict [("plan", 2), ("code", 3)]]]) "plan"
      = lastAssigned (dictFragments
          ([[PartParse.dict [("plan", (1 : Nat))], PartParse.nonText],
            [PartParse.dict [("plan", 2), ("code", 3)]]]
            : List (List (PartParse Nat))).flatten) "plan"
    ∧ extractFinalResult
        [[PartParse.dict [("plan", (1 : Nat))], PartParse.nonText],
         [PartParse.dict [("plan", 2), ("code", 3)]]]
      = .success [("plan", 2), ("code", 3)] :=
  ⟨(extraction_merge_last_wins _ (by decide)).2 "plan", by decide⟩

/-- C8: on a successful discovery the discovered card's self-reported URL is
discarded before the client is constructed: `_connect_to_agent` builds the
client over the card with `url` replaced by the caller-supplied base URL
(all other fields kept), so every request for that agent goes to the base
URL regardless of what the descriptor reported. -/
theorem card_url_overridden (base_url : String) (discovered : AgentCardM) :
    connectToAgent base_url (.ok discovered)
      = .ok ({ agent_card := { discovered with url := base_url } },
          { discovered with url := base_url })
    ∧ ({ discovered with url := base_url } : AgentCardM).url = base_url
    ∧ ({ discovered with url := base_url } : AgentCardM).name = discovered.name :=
  ⟨rfl, rfl, rfl⟩

/-- C7 counterexample: with no previously cached client and a failing
discovery call, no fallback endpoint is created (the slot stays empty) and
the subsequent task submission raises
`RuntimeError("Architect Agent is not available")` — it does not work
without a successful discovery. -/
theorem c7_failed_discovery_submission_raises :
    connectSlot (none, none) (some "http://architect:8001") (.error "connection refused")
      = (none, none)
    ∧ sendTaskToArchitect none (some "http://architect:8001") (.error "connection refused")
      = .error "Architect Agent is not available" :=
  ⟨rfl, rfl⟩

/-- C7 (amended): a discovery failure is caught and logged inside
`discover_all_agents` — the resolution pass completes without raising and
the agent's slot is left exactly as it was — but no fallback client on the
configured base URL is constructed; when no client survives from an earlier
successful discovery, task submission re-attempts discovery once and, still
failing, raises instead of submitting. -/
theorem discovery_failure_no_fallback (url err : String)
    (prev : Option ClientM × Option AgentCardM) :
    connectSlot prev (some url) (.error err) = prev
    ∧ sendTaskToArchitect none (some url) (.error err)
      = .error "Architect Agent is not available" :=
  ⟨rfl, rfl⟩

/-- C9: resolution is idempotent under unchanged inputs: a second
`_ensure_connected` with the same URL argument performs no discovery call
and leaves the state untouched, and `_get_httpx_client` returns the cached
transport unchanged whenever the resolved API key equals the tracked one. -/
theorem resolution_idempotent :
    (∀ (st : OrchState) (agent_urls : Option (List (String × Option String)))
        (discover : ConnState → ConnState),
      ensureConnected (ensureConnected st agent_urls discover).1 agent_urls discover
        = ((ensureConnected st agent_urls discover).1, false))
    ∧ (∀ (st : ConnState) (api_key env_key : Option String) (c : Nat),
        st.httpx_client = some c →
        st.current_api_key = resolvedKey st api_key env_key →
        getHttpxClient st api_key env_key = (st, c)) := by
  constructor
  · intro st agent_urls discover
    cases hn : normalizeUrls agent_urls with
    | none =>
      cases hc : st.agents_connected <;> simp [ensureConnected, hn, hc]
    | some nu =>
      cases hni : nu.isEmpty with
      | true =>
        cases hc : st.agents_connected <;> simp [ensureConnected, hn, hni, hc]
      | false =>
        cases hc : st.agents_connected with
        | false => simp [ensureConnected, hn, hni, hc]
        | true =>
          cases hl : st.last_agent_urls == some nu <;>
            simp [ensureConnected, hn, hni, hc, hl]
  · intro st api_key env_key c hclient hkey
    simp [getHttpxClient, hclient, ← hkey]

/-- Witness for `resolution_idempotent`: a cached client numbered 7 under an
unchanged key "key-1" is returned as is, and a second resolution with the
same URL set is a no-op that performs no discovery. -/
theorem resolution_idempotent_witness :
    getHttpxClient
        ⟨some 7, some "key-1", some "key-1", some 1, some 2, some 3, some 4, some 5, some 6, 8⟩
        (some "key-1") none
      = (⟨some 7, some "key-1", some "key-1", some 1, some 2, some 3, some 4, some 5, some 6, 8⟩,
          7)
    ∧ ensureConnected
        (ensureConnected ⟨⟨none, none, none, none, none, none, none, none, none, 0⟩, false, none⟩
          (some [("architect_agent_url", some "http://a")]) id).1
        (some [("architect_agent_url", some "http://a")]) id
      = ((ensureConnected ⟨⟨none, none, none, none, none, none, none, none, none, 0⟩, false, none⟩
          (some [("architect_agent_url", some "http://a")]) id).1, false) :=
  ⟨resolution_idempotent.2
      ⟨some 7, some "key-1", some "key-1", some 1, some 2, some 3, some 4, some 5, some 6, 8⟩
      (some "key-1") none 7 rfl (by decide),
   resolution_idempotent.1
      ⟨⟨none, none, none, none, none, none, none, none, none, 0⟩, false, none⟩
      (some [("architect_agent_url", some "http://a")]) id⟩

/-- Both branches of `_handle_agent_error` report status "error". -/
theorem handleAgentError_status (n : String) (r : AgentResponse) (w : String) :
    (handleAgentError n r w).status = "error" := by
  unfold handleAgentError baseRecord
  split <;> rfl

/-- Both branches of `_handle_agent_error` carry the workflow id. -/
theorem handleAgentError_workflow_id (n : String) (r : AgentResponse) (w : String) :
    (handleAgentError n r w).workflow_id = w := by
  unfold handleAgentError baseRecord
  split <;> rfl

/-- Neither branch of `_handle_agent_error` attaches a plan. -/
theorem handleAgentError_plan (n : String) (r : AgentResponse) (w : String) :
    (handleAgentError n r w).plan = none := by
  unfold handleAgentError baseRecord
  split <;> rfl

/-- Neither branch of `_handle_agent_error` attaches code. -/
theorem handleAgentError_code (n : String) (r : AgentResponse) (w : String) :
    (handleAgentError n r w).code = none := by
  unfold handleAgentError baseRecord
  split <;> rfl

/-- Neither branch of `_handle_agent_error` attaches test results. -/
theorem handleAgentError_test_results (n : String) (r : AgentResponse) (w : String) :
    (handleAgentError n r w).test_results = none := by
  unfold handleAgentError baseRecord
  split <;> rfl

/-- Each branch of `_handle_agent_error` names the failing agent. -/
theorem handleAgentError_agent (n : String) (r : AgentResponse) (w : String) :
    (handleAgentError n r w).agent = some n := by
  unfold handleAgentError baseRecord
  split <;> rfl

/-- On the 403 classification `_handle_agent_error` marks the record
non-retryable. -/
theorem handleAgentError_non_retryable (n : String) (r : AgentResponse) (w : String)
    (h : is403Error r = true) : (handleAgentError n r w).non_retryable = true := by
  unfold handleAgentError
  rw [if_pos h]

/-- A false `stageFails` splits into its three false components. -/
theorem stageFails_false_parts (r : AgentResponse) (h : stageFails r = false) :
    is403Error r = false ∧ truthyS (extractStage r).2 = false
      ∧ truthyS (extractStage r).1 = true := by
  have h403 : is403Error r = false := by
    cases hx : is403Error r
    · rfl
    · rw [stageFails, hx] at h; simp at h
  have herr : truthyS (extractStage r).2 = false := by
    cases hx : truthyS (extractStage r).2
    · rfl
    · rw [stageFails, hx] at h; simp at h
  have hpay : truthyS (extractStage r).1 = true := by
    cases hx : truthyS (extractStage r).1
    · rw [stageFails, h403, herr, hx] at h; simp at h
    · rfl
  exact ⟨h403, herr, hpay⟩

/-- C10: `process_development_request` never propagates an exception (a
stage call that raises is converted to a record by the outer `except`), and
every returned record has a "status" of "success" or "error" and carries
the workflow id. -/
theorem workflow_status_and_id_total (workflow_id user_request : String)
    (inp : WorkflowInput) :
    ((processDevelopmentRequest workflow_id user_request inp).1.status = "success"
      ∨ (processDevelopmentRequest workflow_id user_request inp).1.status = "error")
    ∧ (processDevelopmentRequest workflow_id user_request inp).1.workflow_id = workflow_id := by
  obtain ⟨a, d, t⟩ := inp
  cases a <;> cases d <;> cases t <;>
    simp only [processDevelopmentRequest] <;>
    (repeat' split) <;>
    constructor <;>
    first
      | exact Or.inr (handleAgentError_status _ _ _)
      | exact handleAgentError_workflow_id _ _ _
      | exact Or.inr rfl
      | exact Or.inl rfl
      | rfl

/-- C4 counterexample: the architect stage reporting `{"error": "boom"}`
halts the pipeline, but the returned record is exactly
`{"status": "error", "message": "boom", "workflow_id": "wf-1"}` — no field
names the failing stage and the message does not mention it, so the record
does not carry the failing stage's identity. -/
theorem c4_architect_error_record_lacks_identity :
    processDevelopmentRequest "wf-1" "build a calculator"
        ⟨.returned ⟨some "boom", none, none, false, none⟩,
         .returned ⟨none, some "C", none, false, none⟩,
         .returned ⟨none, some "T", none, false, none⟩⟩
      = ({ baseRecord "wf-1" with message := some "boom" }, ["Architect"])
    ∧ ({ baseRecord "wf-1" with message := some "boom" } : WfRecord).agent = none
    ∧ strContains "boom" "Architect" = false := by
  decide

/-- C4 (amended): stages execute strictly in order and the first stage that
reports an error or a missing required field halts the pipeline: no
downstream stage is invoked, the record carries exactly the completed
stages' outputs (nothing on an architect failure; the plan on a developer
failure; the plan and the code on a tester failure) plus the failing
stage's message, while an explicit stage-identity field is present only for
403 failures. -/
theorem pipeline_halts_in_order (workflow_id user_request : String)
    (r1 r2 r3 : AgentResponse) (rec : WfRecord) (invoked : List String)
    (hrun : processDevelopmentRequest workflow_id user_request
        ⟨.returned r1, .returned r2, .returned r3⟩ = (rec, invoked)) :
    (stageFails r1 = true →
      invoked = ["Architect"] ∧ rec.status = "error"
      ∧ rec.plan = none ∧ rec.code = none ∧ rec.test_results = none)
    ∧ (stageFails r1 = false → stageFails r2 = true →
      invoked = ["Architect", "Developer"] ∧ rec.status = "error"
      ∧ rec.plan = (extractStage r1).1 ∧ rec.code = none ∧ rec.test_results = none)
    ∧ (stageFails r1 = false → stageFails r2 = false → stageFails r3 = true →
      invoked = ["Architect", "Developer", "Tester"] ∧ rec.status = "error"
      ∧ rec.plan = (extractStage r1).1 ∧ rec.code = (extractStage r2).1
      ∧ rec.test_results = none)
    ∧ (stageFails r1 = false → stageFails r2 = false → stageFails r3 = false →
      invoked = ["Architect", "Developer", "Tester"]
      ∧ rec = {
          status := "success", message := none, agent := none, status_code := none,
          non_retryable := false, plan := (extractStage r1).1, code := (extractStage r2).1,
          test_results := (extractStage r3).1, user_request := some user_request,
          workflow_id := workflow_id }) := by
  have hrec : rec = (processDevelopmentRequest workflow_id user_request
      ⟨.returned r1, .returned r2, .returned r3⟩).1 := by rw [hrun]
  have hinv : invoked = (processDevelopmentRequest workflow_id user_request
      ⟨.returned r1, .returned r2, .returned r3⟩).2 := by rw [hrun]
  subst hrec
  subst hinv
  refine ⟨?_, ?_, ?_, ?_⟩
  · intro hf1
    cases h403 : is403Error r1 with
    | true =>
      simp [processDevelopmentRequest, h403, handleAgentError_status,
        handleAgentError_plan, handleAgentError_code, handleAgentError_test_results]
    | false =>
      cases he : truthyS (extractStage r1).2 with
      | true => simp [processDevelopmentRequest, h403, he, baseRecord]
      | false =>
        have hp : truthyS (extractStage r1).1 = false := by
          cases hx : truthyS (extractStage r1).1
          · rfl
          · rw [stageFails, h403, he, hx] at hf1; simp at hf1
        simp [processDevelopmentRequest, h403, he, hp, baseRecord]
  · intro hf1 hf2
    obtain ⟨h403, herr, hpay⟩ := stageFails_false_parts r1 hf1
    cases h403b : is403Error r2 with
    | true =>
      simp [processDevelopmentRequest, h403, herr, hpay, h403b, handleAgentError_status,
        handleAgentError_code, handleAgentError_test_results]
    | false =>
      cases he : truthyS (extractStage r2).2 with
      | true => simp [processDevelopmentRequest, h403, herr, hpay, h403b, he, baseRecord]
      | false =>
        have hp : truthyS (extractStage r2).1 = false := by
          cases hx : truthyS (extractStage r2).1
          · rfl
          · rw [stageFails, h403b, he, hx] at hf2; simp at hf2
        simp [processDevelopmentRequest, h403, herr, hpay, h403b, he, hp, baseRecord]
  · intro hf1 hf2 hf3
    obtain ⟨h403, herr, hpay⟩ := stageFails_false_parts r1 hf1
    obtain ⟨h403b, herrb, hpayb⟩ := stageFails_false_parts r2 hf2
    cases h403c : is403Error r3 with
    | true =>
      simp [processDevelopmentRequest, h403, herr, hpay, h403b, herrb, hpayb, h403c,
        handleAgentError_status, handleAgentError_test_results]
    | false =>
      cases he : truthyS (extractStage r3).2 with
      | true =>
        simp [processDevelopmentRequest, h403, herr, hpay, h403b, herrb, hpayb, h403c, he,
          baseRecord]
      | false =>
        have hp : truthyS (extractStage r3).1 = false := by
          cases hx : truthyS (extractStage r3).1
          · rfl
          · rw [stageFails, h403c, he, hx] at hf3; simp at hf3
        simp [processDevelopmentRequest, h403, herr, hpay, h403b, herrb, hpayb, h403c, he,
          hp, baseRecord]
  · intro hf1 hf2 hf3
    obtain ⟨h403, herr, hpay⟩ := stageFails_false_parts r1 hf1
    obtain ⟨h403b, herrb, hpayb⟩ := stageFails_false_parts r2 hf2
    obtain ⟨h403c, herrc, hpayc⟩ := stageFails_false_parts r3 hf3
    simp [processDevelopmentRequest, h403, herr, hpay, h403b, herrb, hpayb, h403c, herrc,
      hpayc]

/-- Witness for `pipeline_halts_in_order`: the architect succeeds with plan
"P", the developer reports "dev exploded"; the pipeline stops after the
developer carrying the plan and no code. -/
theorem pipeline_halts_in_order_witness :
    (processDevelopmentRequest "wf-2" "req"
        ⟨.returned ⟨none, some "P", none, false, none⟩,
         .returned ⟨some "dev exploded", none, none, false, none⟩,
         .returned ⟨none, some "T", none, false, none⟩⟩).2 = ["Architect", "Developer"]
    ∧ (processDevelopmentRequest "wf-2" "req"
        ⟨.returned ⟨none, some "P", none, false, none⟩,
         .returned ⟨some "dev exploded", none, none, false, none⟩,
         .returned ⟨none, some "T", none, false, none⟩⟩).1.status = "error"
    ∧ (processDevelopmentRequest "wf-2" "req"
        ⟨.returned ⟨none, some "P", none, false, none⟩,
         .returned ⟨some "dev exploded", none, none, false, none⟩,
         .returned ⟨none, some "T", none, false, none⟩⟩).1.plan = some "P"
    ∧ (processDevelopmentRequest "wf-2" "req"
        ⟨.returned ⟨none, some "P", none, false, none⟩,
         .returned ⟨some "dev exploded", none, none, false, none⟩,
         .returned ⟨none, some "T", none, false, none⟩⟩).1.code = none
    ∧ (processDevelopmentRequest "wf-2" "req"
        ⟨.returned ⟨none, some "P", none, false, none⟩,
         .returned ⟨some "dev exploded", none, none, false, none⟩,
         .returned ⟨none, some "T", none, false, none⟩⟩).1.test_results = none :=
  (pipeline_halts_in_order "wf-2" "req"
      ⟨none, some "P", none, false, none⟩
      ⟨some "dev exploded", none, none, false, none⟩
      ⟨none, some "T", none, false, none⟩ _ _ rfl).2.1 (by decide) (by decide)

/-- C5 counterexample: the developer stage returns the non-retryable 403
dictionary; the REST entry's externally visible status becomes "completed"
(the error record is stored as a completed result), not "failed", even
though the tester is never invoked and the payload identifies the Developer
and non-retryable. -/
theorem c5_dev_403_rest_status_completed :
    (processDevelopmentTask (initialTaskEntry "t-1" "req")
        (.returned (processDevelopmentRequest "wf-3" "req" devForbiddenRun).1)).status
      = "completed"
    ∧ (processDevelopmentTask (initialTaskEntry "t-1" "req")
        (.returned (processDevelopmentRequest "wf-3" "req" devForbiddenRun).1)).status
      ≠ "failed"
    ∧ (getDevelopmentTask (processDevelopmentTask (initialTaskEntry "t-1" "req")
        (.returned (processDevelopmentRequest "wf-3" "req" devForbiddenRun).1))).status
      ≠ "failed"
    ∧ (processDevelopmentRequest "wf-3" "req" devForbiddenRun).2
      = ["Architect", "Developer"]
    ∧ (processDevelopmentRequest "wf-3" "req" devForbiddenRun).1.agent
      = some "Developer"
    ∧ (processDevelopmentRequest "wf-3" "req" devForbiddenRun).1.non_retryable
      = true := by
  decide

/-- C5 (amended): on a stage's non-retryable 403 error the workflow record
has status "error", names the failing Developer stage and is marked
non-retryable, and the Tester is never invoked; but the REST entry's
externally visible status becomes "completed" with the error record stored
as the result — "failed" is reserved for a raised exception. -/
theorem rest_status_on_auth_denied (task_id user_request workflow_id : String)
    (r1 r2 r3 : AgentResponse)
    (h1 : stageFails r1 = false) (h2 : is403Error r2 = true) :
    ∃ rec : WfRecord,
      processDevelopmentRequest workflow_id user_request
          ⟨.returned r1, .returned r2, .returned r3⟩ = (rec, ["Architect", "Developer"])
      ∧ rec.status = "error" ∧ rec.agent = some "Developer" ∧ rec.non_retryable = true
      ∧ (processDevelopmentTask (initialTaskEntry task_id user_request)
          (.returned rec)).status = "completed"
      ∧ (getDevelopmentTask (processDevelopmentTask (initialTaskEntry task_id user_request)
          (.returned rec))).status = "completed" := by
  obtain ⟨h403, herr, hpay⟩ := stageFails_false_parts r1 h1
  refine ⟨{ handleAgentError "Developer" r2 workflow_id with plan := (extractStage r1).1 },
    ?_, ?_, ?_, ?_, rfl, rfl⟩
  · simp [processDevelopmentRequest, h403, herr, hpay, h2]
  · exact handleAgentError_status "Developer" r2 workflow_id
  · exact handleAgentError_agent "Developer" r2 workflow_id
  · exact handleAgentError_non_retryable "Developer" r2 workflow_id h2

/-- Witness for `rest_status_on_auth_denied` on the concrete scenario. -/
theorem rest_status_on_auth_denied_witness :
    ∃ rec : WfRecord,
      processDevelopmentRequest "wf-3" "req" devForbiddenRun
        = (rec, ["Architect", "Developer"])
      ∧ rec.status = "error" ∧ rec.agent = some "Developer" ∧ rec.non_retryable = true
      ∧ (processDevelopmentTask (initialTaskEntry "t-1" "req")
          (.returned rec)).status = "completed"
      ∧ (getDevelopmentTask (processDevelopmentTask (initialTaskEntry "t-1" "req")
          (.returned rec))).status = "completed" :=
  rest_status_on_auth_denied "t-1" "req" "wf-3"
    ⟨none, some "P", none, false, none⟩
    ⟨some forbiddenMsg, none, some 403, true, none⟩
    ⟨none, some "T", none, false, none⟩ (by decide) (by decide)

end BrainstormHost
